import Mathlib

/-!
Shallow embedding of `etc/scripts/helion_wrapper.py`.

The wrapper is a one-shot CLI tool: it parses `--inputfile` / `--outputfile`,
dynamically loads the input file as a module, discovers public Helion kernel
objects among its members, sorts them by declaration line number, and for each
kernel binds synthetic arguments, takes the default configuration, generates
Triton code, and writes it (plus a blank separator line) to the output file.
Per-kernel exceptions skip the kernel; top-level exceptions print each
exception argument on its own line to stderr (best effort) and exit 255.

External collaborators (the Python import machinery, the helion library, torch,
and the file system) are modelled as an `Env` record of oracles: each oracle
says whether the corresponding external call succeeds and with what result.
The wrapper's own control flow is translated directly from the source.
-/

namespace HelionWrapper

/-- A Python exception as seen by the top-level handler: its `args` tuple
(each element already rendered by `str`) and its `str(...)` form. -/
structure PyExc where
  args : List String
  toStr : String
deriving DecidableEq, Repr

/-- `(getattr(error, "args", None) or [str(error)])` from `main`'s handler:
the exception's args, or its string form when the args tuple is empty. -/
def exc_messages (e : PyExc) : List String :=
  if e.args.isEmpty then [e.toStr] else e.args

/-- The annotation of one declared parameter of a kernel's callable, as
tested by `_make_fake_args` (`ann is int` / `float` / `bool`); `empty` is an
unannotated parameter, `other` any other annotation object. -/
inductive Ann
  | int
  | float
  | bool
  | empty
  | other
deriving DecidableEq, Repr

/-- A placeholder argument produced by `_make_fake_args`: `1`, `1.0`, `False`,
`torch.empty([1])`, or the `None` fallback. -/
inductive FakeArg
  | intV
  | floatV
  | boolV
  | tensorV
  | noneV
deriving DecidableEq, Repr

/-- The per-parameter body of the loop in `_make_fake_args`: the `if/elif`
chain on the annotation, with `torch.empty([1])` in the `else` branch and the
`except` fallback appending `None` when that construction raises.  `tOk i`
says whether the tensor construction for the `i`-th parameter succeeds. -/
def makeFakeArgsGo (tOk : Nat → Bool) : Nat → List Ann → List FakeArg
  | _, [] => []
  | i, ann :: rest =>
    (if ann = Ann.int then FakeArg.intV
     else if ann = Ann.float then FakeArg.floatV
     else if ann = Ann.bool then FakeArg.boolV
     else if tOk i then FakeArg.tensorV else FakeArg.noneV) :: makeFakeArgsGo tOk (i + 1) rest

/-- `_make_fake_args`: if `import torch` fails, return the empty tuple;
otherwise synthesize one placeholder per declared parameter. -/
def make_fake_args (torchAvail : Bool) (tOk : Nat → Bool) (params : List Ann) : List FakeArg :=
  if torchAvail then makeFakeArgsGo tOk 0 params else []

/-- One placeholder per parameter as the spec words it: `int` maps to `1`,
`float` to `1.0`, `bool` to `false`, anything else to a one-element
placeholder tensor, falling back to a null placeholder when the tensor
construction raises.  Stated from the spec, to be compared with
`make_fake_args` which is translated from the source. -/
def specPlaceholder (ctorOk : Bool) : Ann → FakeArg
  | Ann.int => FakeArg.intV
  | Ann.float => FakeArg.floatV
  | Ann.bool => FakeArg.boolV
  | _ => if ctorOk then FakeArg.tensorV else FakeArg.noneV

/-- A Helion kernel handle as the wrapper sees it.  `kid` is the Python
object identity (used by `set(...)` deduplication); `params` the annotations
of `kernel.fn`'s declared parameters; `lineNo` the `co_firstlineno` of the
underlying function, `none` when accessing it raises; `bindFails`,
`configFails`, `codegenFails` say whether `kernel.bind(args)`,
`bound.config_spec.default_config()` and `bound.to_triton_code(cfg)` raise;
`tritonCode` is the generated text when none of them does. -/
structure Kernel where
  kid : Nat
  params : List Ann
  lineNo : Option Nat
  bindFails : List FakeArg → Bool
  configFails : Bool
  codegenFails : Bool
  tritonCode : String

/-- `_line_no`: `k.fn.__code__.co_firstlineno`, or `0` when that raises. -/
def line_no (k : Kernel) : Nat :=
  match k.lineNo with
  | some n => n
  | none => 0

/-- A value bound to a top-level name of the loaded module: either a `Kernel`
instance or anything else. -/
inductive Value
  | kernelVal (k : Kernel)
  | otherVal

/-- The loaded module's members as `inspect.getmembers` yields them:
name/value pairs. -/
abbrev Module := List (String × Value)

/-- `name.startswith("_")`: whether the identifier's first character is an
underscore (equivalent to the byte-prefix test, since `"_"` is one byte). -/
def startsWithUnderscore (n : String) : Bool :=
  match n.data with
  | [] => false
  | c :: _ => c = '_'

/-- The kernel-collection comprehension in `main`: values that are `Kernel`
instances whose name does not start with an underscore. -/
def collectKernels (m : Module) : List Kernel :=
  m.filterMap fun nv =>
    match nv.2 with
    | Value.kernelVal k => if startsWithUnderscore nv.1 then none else some k
    | Value.otherVal => none

/-- `set(kernels)`: deduplication by object identity, keeping the first
occurrence of each identity. -/
def dedupGo (seen : List Nat) : List Kernel → List Kernel
  | [] => []
  | k :: ks => if k.kid ∈ seen then dedupGo seen ks else k :: dedupGo (k.kid :: seen) ks

/-- Deduplicate a kernel list by object identity (models `set(kernels)`). -/
def dedupById (ks : List Kernel) : List Kernel :=
  dedupGo [] ks

/-- The sort key order used by `sorted(..., key=_line_no)`. -/
def lineLE (a b : Kernel) : Prop :=
  line_no a ≤ line_no b

instance : DecidableRel lineLE :=
  fun a b => Nat.decLe (line_no a) (line_no b)

instance : IsTotal Kernel lineLE :=
  ⟨fun a b => Nat.le_total (line_no a) (line_no b)⟩

instance : IsTrans Kernel lineLE :=
  ⟨fun _ _ _ hab hbc => Nat.le_trans hab hbc⟩

/-- `sorted(..., key=_line_no)`: a stable sort by ascending line number. -/
def sortByLine (ks : List Kernel) : List Kernel :=
  List.insertionSort lineLE ks

/-- `kernels = sorted(set(kernels), key=_line_no)` applied to the collected
members: the discovered kernel list the per-kernel loop iterates over. -/
def discovered (m : Module) : List Kernel :=
  sortByLine (dedupById (collectKernels m))

/-- Whether the `try` block of the per-kernel loop raises for kernel `k`:
binding to the synthesized arguments, taking the default configuration, or
generating the Triton code fails. -/
def kernelFails (torchAvail : Bool) (tOk : Nat → Bool) (k : Kernel) : Bool :=
  k.bindFails (make_fake_args torchAvail tOk k.params) || k.configFails || k.codegenFails

/-- The per-kernel loop of `main`.  `wf n` is the exception raised by the
`n`-th `out.write` call (counting from 0), or `none` when that write
succeeds.  Returns the text written to the output file from this point on,
and the exception that aborted the loop, if any.  A kernel whose `try` block
raises is skipped and contributes no writes; a successful kernel contributes
two writes, its code and the `"\n\n"` separator; a write exception escapes
the loop at once. -/
def emitLoop (torchAvail : Bool) (tOk : Nat → Bool) (wf : Nat → Option PyExc) :
    List Kernel → Nat → String × Option PyExc
  | [], _ => ("", none)
  | k :: ks, wc =>
    if kernelFails torchAvail tOk k then
      emitLoop torchAvail tOk wf ks wc
    else
      match wf wc with
      | some e => ("", some e)
      | none =>
        match wf (wc + 1) with
        | some e => (k.tritonCode, some e)
        | none =>
          let r := emitLoop torchAvail tOk wf ks (wc + 2)
          (k.tritonCode ++ "\n\n" ++ r.1, r.2)

/-- The behaviour of the external collaborators during one run of the tool:
which command-line flags were supplied, the outcome of loading the input
module, of importing helion, of opening the output file, of each write to it,
whether `import torch` succeeds, whether each `torch.empty([1])` call
succeeds, and whether writing to stderr succeeds. -/
structure Env where
  inputGiven : Bool
  outputGiven : Bool
  loadResult : Except PyExc Module
  helionImport : Option PyExc
  openOut : Option PyExc
  writeFail : Nat → Option PyExc
  torchAvailable : Bool
  tensorOk : Nat → Bool
  stderrOk : Bool

/-- The observable outcome of a run that reached `main`'s `try` block:
the process exit status, the output file's contents (`none` when the file was
never created), and the strings written to stderr. -/
structure RunResult where
  exitCode : Nat
  outFile : Option String
  stderrWritten : List String
deriving DecidableEq, Repr

/-- The outcome of invoking the tool: an argparse usage failure (missing
required flag, before `main`'s `try` block), or a completed run. -/
inductive MainOutcome
  | usageError
  | ran (r : RunResult)
deriving DecidableEq, Repr

/-- `main`'s `except` handler: write each message followed by a newline to
stderr (suppressing any failure there), then `sys.exit(255)`.  `f` is the
output file's contents at that point. -/
def errResult (stderrOk : Bool) (e : PyExc) (f : Option String) : RunResult :=
  ⟨255, f, if stderrOk then (exc_messages e).map (fun s => s ++ "\n") else []⟩

/-- The body of `main`'s `try` block: load the module, import helion, collect
and sort the kernels, open the output file, run the per-kernel loop; any
exception goes to the handler. -/
def runBody (env : Env) : RunResult :=
  match env.loadResult with
  | Except.error e => errResult env.stderrOk e none
  | Except.ok m =>
    match env.helionImport with
    | some e => errResult env.stderrOk e none
    | none =>
      match env.openOut with
      | some e => errResult env.stderrOk e none
      | none =>
        let r := emitLoop env.torchAvailable env.tensorOk env.writeFail (discovered m) 0
        match r.2 with
        | some e => errResult env.stderrOk e (some r.1)
        | none => ⟨0, some r.1, []⟩

/-- `main`: argparse rejects a missing required flag before the `try` block;
otherwise the body runs under the top-level handler. -/
def main (env : Env) : MainOutcome :=
  if env.inputGiven && env.outputGiven then MainOutcome.ran (runBody env) else MainOutcome.usageError

/-- The process exit status of an outcome.  argparse terminates the process
with status 2 on a missing required argument. -/
def exitCodeOf : MainOutcome → Nat
  | MainOutcome.usageError => 2
  | MainOutcome.ran r => r.exitCode

/-- The bytes of the output file after a run, `none` when the file was never
created (usage error, or failure before the file was opened). -/
def outputBytes : MainOutcome → Option String
  | MainOutcome.usageError => none
  | MainOutcome.ran r => r.outFile

/-- Concatenation of a list of text blocks, in order. -/
def concatBlocks : List String → String
  | [] => ""
  | s :: rest => s ++ concatBlocks rest

/-- A top-level failure before the per-kernel loop: the module load raised,
or it succeeded and the helion import raised, or both succeeded and opening
the output file raised. -/
def topLevelFailure (env : Env) (e : PyExc) : Prop :=
  env.loadResult = Except.error e ∨
    ((∃ m, env.loadResult = Except.ok m) ∧ env.helionImport = some e) ∨
    ((∃ m, env.loadResult = Except.ok m) ∧ env.helionImport = none ∧ env.openOut = some e)

/-! Concrete fixtures used to evaluate the theorems on closed inputs. -/

/-- A well-behaved kernel declared on line 5 with four annotated parameters. -/
def kAdd : Kernel :=
  ⟨1, [Ann.int, Ann.float, Ann.bool, Ann.empty], some 5, fun _ => false, false, false, "A"⟩

/-- A well-behaved kernel declared on line 3 with no parameters. -/
def kMul : Kernel :=
  ⟨2, [], some 3, fun _ => false, false, false, "B"⟩

/-- A kernel whose `bind` call always raises. -/
def kBad : Kernel :=
  ⟨3, [], some 4, fun _ => true, false, false, "BAD"⟩

/-- A kernel whose `bind` raises exactly when given an empty argument tuple. -/
def kNeedsArgs : Kernel :=
  ⟨4, [Ann.other], some 7, fun args => args.isEmpty, false, false, "N"⟩

/-- A module with two public kernels, one private one, one non-kernel
member. -/
def modOk : Module :=
  [("add", Value.kernelVal kAdd), ("zmul", Value.kernelVal kMul),
   ("_hidden", Value.kernelVal kBad), ("x", Value.otherVal)]

/-- A module whose only public kernel always raises during `bind`. -/
def modAllFail : Module :=
  [("bad", Value.kernelVal kBad)]

/-- A module whose only public kernel rejects an empty argument tuple. -/
def modNoTorch : Module :=
  [("k", Value.kernelVal kNeedsArgs)]

/-- A run in which everything succeeds. -/
def envOk : Env :=
  ⟨true, true, Except.ok modOk, none, none, fun _ => none, true, fun _ => true, true⟩

/-- The same run with stderr unavailable (the only run-to-run difference). -/
def envOkQuiet : Env :=
  ⟨true, true, Except.ok modOk, none, none, fun _ => none, true, fun _ => true, false⟩

/-- A sample exception with two arguments. -/
def excBoom : PyExc :=
  ⟨["boom", "bam"], "boom bam"⟩

/-- A run in which loading the input module raises `excBoom`. -/
def envErrLoad : Env :=
  ⟨true, true, Except.error excBoom, none, none, fun _ => none, true, fun _ => true, true⟩

/-- A run invoked without the `--inputfile` flag. -/
def envUsage : Env :=
  ⟨false, true, Except.ok [], none, none, fun _ => none, true, fun _ => true, true⟩

/-- A run in which the only public kernel always raises during `bind`. -/
def envAllFail : Env :=
  ⟨true, true, Except.ok modAllFail, none, none, fun _ => none, true, fun _ => true, true⟩

/-- A run in which `import torch` fails and the only public kernel rejects an
empty argument tuple. -/
def envNoTorch : Env :=
  ⟨true, true, Except.ok modNoTorch, none, none, fun _ => none, false, fun _ => true, true⟩

/-- A module containing a single well-behaved public kernel. -/
def modOne : Module :=
  [("add", Value.kernelVal kAdd)]

/-- A run in which the very first write to the output file raises. -/
def envWriteFail : Env :=
  ⟨true, true, Except.ok modOne, none, none,
   fun n => if n = 0 then some ⟨["io"], "io"⟩ else none, true, fun _ => true, true⟩

end HelionWrapper

namespace HelionWrapper

set_option maxRecDepth 8000

/-! Helper lemmas shared by the claim proofs. -/

/-- A run of the per-kernel loop in which no write fails produces exactly the
blocks of the non-failing kernels, in order, each followed by the separator. -/
theorem emitLoop_all_ok (ta : Bool) (tk : Nat → Bool) (wf : Nat → Option PyExc)
    (hw : ∀ n, wf n = none) :
    ∀ (ks : List Kernel) (wc : Nat),
      emitLoop ta tk wf ks wc =
        (concatBlocks (((ks.filter fun k => !kernelFails ta tk k).map
          fun k => k.tritonCode ++ "\n\n")), none)
  | [], _ => rfl
  | k :: ks, wc => by
    by_cases h : kernelFails ta tk k = true
    · simp [emitLoop, h, emitLoop_all_ok ta tk wf hw ks wc]
    · simp only [Bool.not_eq_true] at h
      simp [emitLoop, h, hw, concatBlocks, emitLoop_all_ok ta tk wf hw ks (wc + 2)]

/-- A run of the per-kernel loop in which every kernel's try block raises
writes nothing and finishes without an exception. -/
theorem emitLoop_all_fail (ta : Bool) (tk : Nat → Bool) (wf : Nat → Option PyExc) :
    ∀ (ks : List Kernel) (wc : Nat), (∀ k ∈ ks, kernelFails ta tk k = true) →
      emitLoop ta tk wf ks wc = ("", none)
  | [], _, _ => rfl
  | k :: ks, wc, h => by
    have hk := h k (List.mem_cons_self k ks)
    have hrest := emitLoop_all_fail ta tk wf ks wc (fun k hm => h k (List.mem_cons_of_mem _ hm))
    simp [emitLoop, hk, hrest]

/-- Every kernel surviving deduplication comes from the original list. -/
theorem dedupGo_mem (seen : List Nat) :
    ∀ (ks : List Kernel) (k : Kernel), k ∈ dedupGo seen ks → k ∈ ks := by
  intro ks
  induction ks generalizing seen with
  | nil => intro k h; simp [dedupGo] at h
  | cons a l ih =>
    intro k h
    by_cases ha : a.kid ∈ seen
    · simp only [dedupGo, if_pos ha] at h
      exact List.mem_cons_of_mem _ (ih seen k h)
    · simp only [dedupGo, if_neg ha, List.mem_cons] at h
      rcases h with h | h
      · exact h ▸ List.mem_cons_self a l
      · exact List.mem_cons_of_mem _ (ih (a.kid :: seen) k h)

/-- Deduplication yields pairwise-distinct object identities, none of them
already seen. -/
theorem dedupGo_nodup (ks : List Kernel) :
    ∀ seen : List Nat, ((dedupGo seen ks).map Kernel.kid).Nodup ∧
      ∀ i ∈ (dedupGo seen ks).map Kernel.kid, i ∉ seen := by
  induction ks with
  | nil => intro seen; simp [dedupGo]
  | cons a l ih =>
    intro seen
    by_cases ha : a.kid ∈ seen
    · simpa [dedupGo, if_pos ha] using ih seen
    · obtain ⟨hnd, hni⟩ := ih (a.kid :: seen)
      refine ⟨?_, ?_⟩
      · simp only [dedupGo, if_neg ha, List.map_cons, List.nodup_cons]
        refine ⟨fun hmem => ?_, hnd⟩
        exact (hni a.kid hmem) (List.mem_cons_self _ _)
      · intro i hi
        simp only [dedupGo, if_neg ha, List.map_cons, List.mem_cons] at hi
        rcases hi with hi | hi
        · exact hi ▸ ha
        · exact fun hmem => (hni i hi) (List.mem_cons_of_mem _ hmem)

/-- Every identity in the input list either was already seen or survives
deduplication. -/
theorem dedupGo_covers (ks : List Kernel) :
    ∀ (seen : List Nat) (k : Kernel), k ∈ ks →
      k.kid ∈ seen ∨ k.kid ∈ (dedupGo seen ks).map Kernel.kid := by
  induction ks with
  | nil => intro seen k h; simp at h
  | cons a l ih =>
    intro seen k h
    rcases List.mem_cons.mp h with rfl | h
    · by_cases ha : k.kid ∈ seen
      · exact Or.inl ha
      · right
        simp [dedupGo, if_neg ha]
    · by_cases ha : a.kid ∈ seen
      · simpa [dedupGo, if_pos ha] using ih seen k h
      · rcases ih (a.kid :: seen) k h with hs | hs
        · rcases List.mem_cons.mp hs with he | he
          · right
            simp [dedupGo, if_neg ha, he]
          · exact Or.inl he
        · right
          simp only [dedupGo, if_neg ha, List.map_cons, List.mem_cons]
          exact Or.inr hs

/-- Sorting by line number permutes the list. -/
theorem sortByLine_perm (ks : List Kernel) : List.Perm (sortByLine ks) ks :=
  List.perm_insertionSort lineLE ks

/-- The discovered list is sorted by ascending line number. -/
theorem discovered_sorted (m : Module) : List.Sorted lineLE (discovered m) :=
  List.sorted_insertionSort lineLE (dedupById (collectKernels m))

/-- Every kernel of the discovered list is a collected member. -/
theorem discovered_mem (m : Module) (k : Kernel) (h : k ∈ discovered m) :
    k ∈ collectKernels m :=
  dedupGo_mem [] (collectKernels m) k ((sortByLine_perm _).subset h)

/-- The synthesized placeholder list agrees pointwise with the spec's
per-annotation mapping, for any starting index of the tensor oracle. -/
theorem makeFakeArgsGo_spec (tk : Nat → Bool) :
    ∀ (params : List Ann) (j : Nat),
      (makeFakeArgsGo tk j params).length = params.length ∧
      ∀ i : Nat, (makeFakeArgsGo tk j params)[i]? =
        (params[i]?).map fun a => specPlaceholder (tk (j + i)) a
  | [], j => by simp [makeFakeArgsGo]
  | ann :: rest, j => by
    obtain ⟨hlen, hidx⟩ := makeFakeArgsGo_spec tk rest (j + 1)
    refine ⟨by simp [makeFakeArgsGo, hlen], ?_⟩
    intro i
    cases i with
    | zero =>
      cases ann <;> simp [makeFakeArgsGo, specPlaceholder]
    | succ n =>
      simp only [makeFakeArgsGo, List.getElem?_cons_succ]
      have harith : j + 1 + n = j + (n + 1) := by omega
      rw [hidx n, harith]

/-- C1: every top-level exception (module load failure, kernel-library import
failure, file I/O failure before the per-kernel loop) makes the process exit
with status 255 after writing each of the exception's arguments (or its
string form when it has none) on its own line to the error stream; a failure
while writing to the error stream is silently suppressed and the exit status
is still 255 (with nothing written). -/
theorem C1_top_level_exception_exit255 (env : Env) (e : PyExc)
    (hin : env.inputGiven = true) (hout : env.outputGiven = true)
    (hfail : topLevelFailure env e) :
    main env = MainOutcome.ran ⟨255, none,
      if env.stderrOk then (exc_messages e).map (fun s => s ++ "\n") else []⟩ := by
  rcases hfail with h | ⟨⟨m, hm⟩, h⟩ | ⟨⟨m, hm⟩, h1, h2⟩
  · simp [main, hin, hout, runBody, h, errResult]
  · simp [main, hin, hout, runBody, hm, h, errResult]
  · simp [main, hin, hout, runBody, hm, h1, h2, errResult]

/-- C1 evaluated: a module-load failure with a two-argument exception exits
255 with each argument on its own stderr line. -/
theorem C1_top_level_exception_exit255_witness :
    main envErrLoad = MainOutcome.ran ⟨255, none, ["boom\n", "bam\n"]⟩ :=
  C1_top_level_exception_exit255 envErrLoad excBoom rfl rfl (Or.inl rfl)

/-- C2: a kernel whose per-kernel sequence (binding, default configuration,
or code generation) raises is silently skipped: nothing is written for it,
nothing is surfaced, and the loop continues with the remaining kernels
unchanged. -/
theorem C2_per_kernel_silent_skip (ta : Bool) (tk : Nat → Bool)
    (wf : Nat → Option PyExc) (k : Kernel) (ks : List Kernel) (wc : Nat)
    (h : kernelFails ta tk k = true) :
    emitLoop ta tk wf (k :: ks) wc = emitLoop ta tk wf ks wc := by
  simp [emitLoop, h]

/-- C2 evaluated: a run over just one failing kernel writes nothing and
raises nothing. -/
theorem C2_per_kernel_silent_skip_witness :
    emitLoop true (fun _ => true) (fun _ => none) [kBad] 0 = ("", none) :=
  C2_per_kernel_silent_skip true (fun _ => true) (fun _ => none) kBad [] 0 rfl

/-- C4: with the tensor library available, the argument synthesizer produces
exactly one placeholder per declared parameter: `1` for `int`, `1.0` for
`float`, `False` for `bool`, a one-element placeholder tensor for any other
annotation (including none), and the `None` fallback for a parameter whose
placeholder construction raises. -/
theorem C4_arg_synthesis_per_param (tk : Nat → Bool) (params : List Ann) :
    (make_fake_args true tk params).length = params.length ∧
    ∀ i : Nat, (make_fake_args true tk params)[i]? =
      (params[i]?).map fun a => specPlaceholder (tk i) a := by
  obtain ⟨hlen, hidx⟩ := makeFakeArgsGo_spec tk params 0
  refine ⟨by simpa [make_fake_args] using hlen, fun i => ?_⟩
  have h := hidx i
  simpa [make_fake_args] using h

/-- C4 evaluated on the spec's own example: an `int`, a `float`, a `bool`
and an untyped parameter receive `1`, `1.0`, `False` and a placeholder
tensor. -/
theorem C4_arg_synthesis_per_param_witness :
    (make_fake_args true (fun _ => true)
      [Ann.int, Ann.float, Ann.bool, Ann.empty]).length = 4 ∧
    ∀ i : Nat, (make_fake_args true (fun _ => true)
        [Ann.int, Ann.float, Ann.bool, Ann.empty])[i]? =
      ((([Ann.int, Ann.float, Ann.bool, Ann.empty] : List Ann))[i]?).map
        fun a => specPlaceholder true a :=
  C4_arg_synthesis_per_param (fun _ => true) [Ann.int, Ann.float, Ann.bool, Ann.empty]

/-- C9: a missing `--inputfile` or `--outputfile` flag fails in argparse,
before the top-level handler is in effect: the process does not exit 255 and
never reaches the run path with its one-message-per-line stderr format
(argparse terminates with status 2). -/
theorem C9_missing_flag_usage_error (env : Env)
    (h : env.inputGiven = false ∨ env.outputGiven = false) :
    main env = MainOutcome.usageError ∧ exitCodeOf (main env) = 2 ∧
      exitCodeOf (main env) ≠ 255 ∧
      ∀ r : RunResult, main env ≠ MainOutcome.ran r := by
  have hm : main env = MainOutcome.usageError := by
    rcases h with h | h <;> simp [main, h]
  refine ⟨hm, by rw [hm]; rfl, by rw [hm]; decide, fun r hr => ?_⟩
  rw [hm] at hr
  exact MainOutcome.noConfusion hr

/-- C9 evaluated: invoking the tool without `--inputfile` is a usage error,
not a 255 exit. -/
theorem C9_missing_flag_usage_error_witness :
    main envUsage = MainOutcome.usageError ∧ exitCodeOf (main envUsage) = 2 ∧
      exitCodeOf (main envUsage) ≠ 255 ∧
      ∀ r : RunResult, main envUsage ≠ MainOutcome.ran r :=
  C9_missing_flag_usage_error envUsage (Or.inl rfl)

/-- C3: the discovered kernel list is deduplicated by object identity and
sorted by ascending declaration line number (with fallback key 0 for a kernel
whose line cannot be determined), and when no write fails, the output file is
exactly one generated-text block per successfully processed kernel in that
order, each followed by two newline characters, with nothing else. -/
theorem C3_dedup_sort_output_blocks (env : Env) (m : Module)
    (hin : env.inputGiven = true) (hout : env.outputGiven = true)
    (hload : env.loadResult = Except.ok m) (himp : env.helionImport = none)
    (hopen : env.openOut = none) (hw : ∀ n, env.writeFail n = none) :
    List.Sorted lineLE (discovered m) ∧
    ((discovered m).map Kernel.kid).Nodup ∧
    (∀ k ∈ collectKernels m, k.kid ∈ (discovered m).map Kernel.kid) ∧
    (∀ k : Kernel, k.lineNo = none → line_no k = 0) ∧
    main env = MainOutcome.ran ⟨0,
      some (concatBlocks (((discovered m).filter
        fun k => !kernelFails env.torchAvailable env.tensorOk k).map
        fun k => k.tritonCode ++ "\n\n")), []⟩ := by
  refine ⟨discovered_sorted m, ?_, ?_, ?_, ?_⟩
  · have h1 := (dedupGo_nodup (collectKernels m) []).1
    have hperm := (sortByLine_perm (dedupById (collectKernels m))).map Kernel.kid
    exact hperm.nodup_iff.mpr h1
  · intro k hk
    rcases dedupGo_covers (collectKernels m) [] k hk with hs | hs
    · simp at hs
    · have hperm := (sortByLine_perm (dedupById (collectKernels m))).map Kernel.kid
      exact hperm.mem_iff.mpr hs
  · intro k hk
    simp [line_no, hk]
  · have hloop := emitLoop_all_ok env.torchAvailable env.tensorOk env.writeFail hw
      (discovered m) 0
    simp [main, hin, hout, runBody, hload, himp, hopen, hloop]

/-- C3 evaluated: the module with kernels declared on lines 5 and 3 (plus a
private kernel and a non-kernel member) yields the line-3 block before the
line-5 block, each followed by two newlines, and exit 0. -/
theorem C3_dedup_sort_output_blocks_witness :
    List.Sorted lineLE (discovered modOk) ∧
    ((discovered modOk).map Kernel.kid).Nodup ∧
    (∀ k ∈ collectKernels modOk, k.kid ∈ (discovered modOk).map Kernel.kid) ∧
    (∀ k : Kernel, k.lineNo = none → line_no k = 0) ∧
    main envOk = MainOutcome.ran ⟨0, some "B\n\nA\n\n", []⟩ := by
  have h := C3_dedup_sort_output_blocks envOk modOk rfl rfl rfl rfl rfl (fun _ => rfl)
  refine ⟨h.1, h.2.1, h.2.2.1, h.2.2.2.1, ?_⟩
  rw [h.2.2.2.2]
  decide

/-- C6: when the loaded module defines zero matching kernels, or defines
kernels all of which raise during their per-kernel sequence, the output file
is still created and is empty, and the process exits with code 0. -/
theorem C6_empty_or_all_failing_exit0 (env : Env) (m : Module)
    (hin : env.inputGiven = true) (hout : env.outputGiven = true)
    (hload : env.loadResult = Except.ok m) (himp : env.helionImport = none)
    (hopen : env.openOut = none)
    (hfail : collectKernels m = [] ∨
      ∀ k ∈ collectKernels m, kernelFails env.torchAvailable env.tensorOk k = true) :
    main env = MainOutcome.ran ⟨0, some "", []⟩ := by
  have hall : ∀ k ∈ discovered m, kernelFails env.torchAvailable env.tensorOk k = true := by
    intro k hk
    have hc := discovered_mem m k hk
    rcases hfail with h | h
    · rw [h] at hc
      simp at hc
    · exact h k hc
  have hloop := emitLoop_all_fail env.torchAvailable env.tensorOk env.writeFail
    (discovered m) 0 hall
  simp [main, hin, hout, runBody, hload, himp, hopen, hloop]

/-- C6 evaluated: a module whose only public kernel raises during binding
yields an empty output file and exit code 0. -/
theorem C6_empty_or_all_failing_exit0_witness :
    main envAllFail = MainOutcome.ran ⟨0, some "", []⟩ :=
  C6_empty_or_all_failing_exit0 envAllFail modAllFail rfl rfl rfl rfl rfl
    (Or.inr (fun k hk => by
      have hkk : k = kBad := List.mem_singleton.mp hk
      subst hkk
      rfl))

/-- C7: a top-level name starting with an underscore is never treated as a
kernel, even when bound to a kernel instance: the whole run behaves exactly
as if the member were absent. -/
theorem C7_underscore_never_kernel (env : Env) (n : String) (v : Value)
    (pre post : Module) (h : startsWithUnderscore n = true)
    (hload : env.loadResult = Except.ok (pre ++ (n, v) :: post)) :
    main env = main ⟨env.inputGiven, env.outputGiven, Except.ok (pre ++ post),
      env.helionImport, env.openOut, env.writeFail, env.torchAvailable,
      env.tensorOk, env.stderrOk⟩ := by
  have hc : collectKernels (pre ++ (n, v) :: post) = collectKernels (pre ++ post) := by
    unfold collectKernels
    rw [List.filterMap_append, List.filterMap_append, List.filterMap_cons]
    cases v <;> simp [h]
  have hd : discovered (pre ++ (n, v) :: post) = discovered (pre ++ post) := by
    unfold discovered
    rw [hc]
  simp [main, runBody, hload, hd]

/-- C7 evaluated: dropping the `_hidden` kernel member from the module leaves
the run's outcome unchanged. -/
theorem C7_underscore_never_kernel_witness :
    main envOk = main ⟨true, true,
      Except.ok ([("add", Value.kernelVal kAdd), ("zmul", Value.kernelVal kMul)] ++
        [("x", Value.otherVal)]),
      none, none, fun _ => none, true, fun _ => true, true⟩ :=
  C7_underscore_never_kernel envOk "_hidden" (Value.kernelVal kBad)
    [("add", Value.kernelVal kAdd), ("zmul", Value.kernelVal kMul)]
    [("x", Value.otherVal)] rfl rfl

/-- The output file produced by the try-block body does not depend on
whether writing to stderr succeeds. -/
theorem runBody_outFile_stderr_indep (i o : Bool) (l : Except PyExc Module)
    (hi op : Option PyExc) (w : Nat → Option PyExc) (t : Bool) (tk : Nat → Bool)
    (s₁ s₂ : Bool) :
    (runBody ⟨i, o, l, hi, op, w, t, tk, s₁⟩).outFile =
      (runBody ⟨i, o, l, hi, op, w, t, tk, s₂⟩).outFile := by
  cases l with
  | error e => simp [runBody, errResult]
  | ok m =>
    cases hi with
    | some e => simp [runBody, errResult]
    | none =>
      cases op with
      | some e => simp [runBody, errResult]
      | none =>
        cases hE : (emitLoop t tk w (discovered m) 0).2 <;> simp [runBody, hE, errResult]

/-- C5: two runs of the tool on the same input, with the same (deterministic)
behaviour of module loading, library import, file I/O and argument synthesis,
produce byte-identical output files — in particular the emitted kernel blocks
appear in the same order; the only run-varying oracle left, stderr
availability, cannot influence the output file. -/
theorem C5_two_runs_byte_identical (env₁ env₂ : Env)
    (h1 : env₁.inputGiven = env₂.inputGiven) (h2 : env₁.outputGiven = env₂.outputGiven)
    (h3 : env₁.loadResult = env₂.loadResult) (h4 : env₁.helionImport = env₂.helionImport)
    (h5 : env₁.openOut = env₂.openOut) (h6 : env₁.writeFail = env₂.writeFail)
    (h7 : env₁.torchAvailable = env₂.torchAvailable)
    (h8 : env₁.tensorOk = env₂.tensorOk) :
    outputBytes (main env₁) = outputBytes (main env₂) := by
  obtain ⟨i₁, o₁, l₁, hi₁, op₁, w₁, t₁, tk₁, s₁⟩ := env₁
  obtain ⟨i₂, o₂, l₂, hi₂, op₂, w₂, t₂, tk₂, s₂⟩ := env₂
  dsimp only at h1 h2 h3 h4 h5 h6 h7 h8
  subst h1
  subst h2
  subst h3
  subst h4
  subst h5
  subst h6
  subst h7
  subst h8
  cases hio : (i₁ && o₁) with
  | false => simp [main, hio, outputBytes]
  | true =>
    simp only [main, hio, if_pos, outputBytes]
    exact runBody_outFile_stderr_indep i₁ o₁ l₁ hi₁ op₁ w₁ t₁ tk₁ s₁ s₂

/-- C5 evaluated: the successful run and its stderr-less twin produce the
same output bytes. -/
theorem C5_two_runs_byte_identical_witness :
    outputBytes (main envOk) = outputBytes (main envOkQuiet) :=
  C5_two_runs_byte_identical envOk envOkQuiet rfl rfl rfl rfl rfl rfl rfl rfl

/-- C8: when the tensor library cannot be imported, the argument synthesizer
returns an empty argument list for every kernel; given that binding a kernel
to an empty argument tuple raises (as the spec states it does, to force the
skip), every kernel is silently skipped, the output file is empty and the
exit code is 0. -/
theorem C8_no_torch_empty_args_skip (env : Env) (m : Module)
    (hin : env.inputGiven = true) (hout : env.outputGiven = true)
    (hload : env.loadResult = Except.ok m) (himp : env.helionImport = none)
    (hopen : env.openOut = none) (hT : env.torchAvailable = false)
    (hbind : ∀ k ∈ collectKernels m, k.bindFails [] = true) :
    (∀ (tk : Nat → Bool) (params : List Ann), make_fake_args false tk params = []) ∧
    main env = MainOutcome.ran ⟨0, some "", []⟩ := by
  refine ⟨fun tk params => rfl, ?_⟩
  have hall : ∀ k ∈ discovered m,
      kernelFails env.torchAvailable env.tensorOk k = true := by
    intro k hk
    have hb := hbind k (discovered_mem m k hk)
    rw [hT]
    simp [kernelFails, make_fake_args, hb]
  have hloop := emitLoop_all_fail env.torchAvailable env.tensorOk env.writeFail
    (discovered m) 0 hall
  simp [main, hin, hout, runBody, hload, himp, hopen, hloop]

/-- C8 evaluated: with torch unavailable and a kernel that rejects an empty
argument tuple, the run produces an empty file and exits 0. -/
theorem C8_no_torch_empty_args_skip_witness :
    (∀ (tk : Nat → Bool) (params : List Ann), make_fake_args false tk params = []) ∧
    main envNoTorch = MainOutcome.ran ⟨0, some "", []⟩ :=
  C8_no_torch_empty_args_skip envNoTorch modNoTorch rfl rfl rfl rfl rfl rfl
    (fun k hk => by
      have hkk : k = kNeedsArgs := List.mem_singleton.mp hk
      subst hkk
      rfl)

/-- C10: an exception raised while writing an already-generated kernel's code
(the text block itself or its trailing separator) is not recovered as a
per-kernel skip: the loop stops at once (no remaining kernel is processed)
and the exception reaches the top-level handler, which exits 255. -/
theorem C10_write_failure_propagates (env : Env) (e : PyExc) (k : Kernel)
    (ks : List Kernel) (wc : Nat)
    (hk : kernelFails env.torchAvailable env.tensorOk k = false) :
    (env.writeFail wc = some e →
      emitLoop env.torchAvailable env.tensorOk env.writeFail (k :: ks) wc =
        ("", some e)) ∧
    (env.writeFail wc = none → env.writeFail (wc + 1) = some e →
      emitLoop env.torchAvailable env.tensorOk env.writeFail (k :: ks) wc =
        (k.tritonCode, some e)) ∧
    (∀ (m : Module) (content : String),
      env.inputGiven = true → env.outputGiven = true →
      env.loadResult = Except.ok m → env.helionImport = none → env.openOut = none →
      emitLoop env.torchAvailable env.tensorOk env.writeFail (discovered m) 0 =
        (content, some e) →
      main env = MainOutcome.ran ⟨255, some content,
        if env.stderrOk then (exc_messages e).map (fun s => s ++ "\n") else []⟩) := by
  refine ⟨fun hw => ?_, fun hw0 hw1 => ?_,
    fun m content hin hout hload himp hopen hloop => ?_⟩
  · simp [emitLoop, hk, hw]
  · simp [emitLoop, hk, hw0, hw1]
  · simp [main, hin, hout, runBody, hload, himp, hopen, hloop, errResult]

/-- C10 evaluated: a failure of the very first write aborts the run with exit
status 255, a partial (here empty) output file, and the I/O error on
stderr. -/
theorem C10_write_failure_propagates_witness :
    main envWriteFail = MainOutcome.ran ⟨255, some "", ["io\n"]⟩ :=
  (C10_write_failure_propagates envWriteFail ⟨["io"], "io"⟩ kAdd [] 0 rfl).2.2
    modOne "" rfl rfl rfl rfl rfl rfl

end HelionWrapper
